import Mathlib

/-!
Shallow embedding of the moler concurrent-observation engine
(src/moler/runner.py, src/moler/scheduler.py,
src/moler/device/textualdevice.py, src/moler/io/raw/ssh.py)
together with theorems settling the behavioural claims about it.

Machine time is modelled by rationals (seconds).  Stateful Python code is
embedded as explicit state-passing functions; Python exceptions become
values of an error type carried in `Except` results or recorded in the
state.  Parts of the library that the claims depend on but whose source
is not available here (the `ConnectionObserver` base class of
moler/connection_observer.py, and the external apscheduler /
concurrent.futures libraries) are modelled from the specification's data
model and are marked as such in their doc comments.
-/

namespace Moler

/-- Exception kinds raised by the embedded code, named after the Python
exception classes used in the source (`CommandTimeout`,
`ConnectionObserverTimeout`, `MolerException`, `WrongUsage`,
`CommandWrongState`, `EventWrongState`, builtin `KeyError`), plus a
generic `pyError` for arbitrary exceptions escaping user callbacks. -/
inductive MolerError where
  | commandTimeout (timeout passed : ℚ)
  | connectionObserverTimeout (timeout passed : ℚ)
  | molerException (msg : String)
  | wrongUsage (msg : String)
  | keyError (msg : String)
  | commandWrongState (observer creation current : String)
  | eventWrongState (observer creation current : String)
  | deviceFailure (msg : String)
  | remoteEndpointNotConnected
  | pyError (msg : String)
  deriving DecidableEq, Repr

/-- The classes `CommandTimeout` and `ConnectionObserverTimeout` are the two timeout
exception classes of moler.exceptions; `time_out_observer` produces
exactly these. -/
def MolerError.isTimeoutKind : MolerError → Bool
  | .commandTimeout _ _ => true
  | .connectionObserverTimeout _ _ => true
  | _ => false

def MolerError.isKeyError : MolerError → Bool
  | .keyError _ => true
  | _ => false

def MolerError.isWrongUsage : MolerError → Bool
  | .wrongUsage _ => true
  | _ => false

/-- Observer status values, from the spec data model (§3): once status
leaves `pending` it never returns. -/
inductive ObserverStatus where
  | pending
  | running
  | done_ok
  | done_err
  | cancelled
  | timed_out
  deriving DecidableEq, Repr

/-- Modelled from the spec: the `ConnectionObserver` base class
(moler/connection_observer.py is not under src/).  Fields follow the
spec's data model §3: `start_time` (0 until start), mutable `timeout`
(`none` embeds Python `None`), `status`, `result` present iff `done_ok`,
`exception` present iff status ∈ {done_err, timed_out}.
`command_string` is present exactly on commands (§3: "For commands:
command_string"); the runner detects commands via
`hasattr(connection_observer, "command_string")`.
`on_timeout_count` counts invocations of the `on_timeout` hook (§4.2:
fired by the runner when it forces the observer into timed-out). -/
structure ConnectionObserver where
  status : ObserverStatus
  result : Option String
  exception : Option MolerError
  start_time : ℚ
  timeout : Option ℚ
  command_string : Option String
  on_timeout_count : ℕ
  deriving DecidableEq, Repr

namespace ConnectionObserver

/-- Modelled from the spec: `done() ≡ status ∈ {done_ok, done_err,
cancelled, timed_out}` (§3 invariants). -/
def done (o : ConnectionObserver) : Bool :=
  match o.status with
  | .done_ok => true
  | .done_err => true
  | .cancelled => true
  | .timed_out => true
  | _ => false

/-- Python `hasattr(connection_observer, "command_string")`: true exactly
for commands. -/
def has_command_string (o : ConnectionObserver) : Bool :=
  o.command_string.isSome

/-- Python `connection_observer.is_command()`: an observer is a command
iff it carries a `command_string` (spec §3). -/
def is_command (o : ConnectionObserver) : Bool :=
  o.has_command_string

/-- Modelled from the spec: `set_exception` of the `ConnectionObserver`
base class (not under src/).  A terminal write: repeated terminal
attempts are no-ops (§8 "At-most-once terminal"); the exception is
recorded and the status becomes `timed_out` for the runner's timeout
kinds and `done_err` otherwise (§3: exception present iff status ∈
{done_err, timed_out}). -/
def set_exception (o : ConnectionObserver) (e : MolerError) : ConnectionObserver :=
  if o.done then o
  else { o with
          exception := some e
          status := if e.isTimeoutKind then .timed_out else .done_err }

/-- Modelled from the spec: `cancel()` of the `ConnectionObserver` base
class (not under src/): terminal transition to `cancelled`, idempotent
(§4.2). -/
def cancel (o : ConnectionObserver) : ConnectionObserver :=
  if o.done then o else { o with status := .cancelled }

/-- Python `connection_observer.cancelled()`. -/
def cancelled (o : ConnectionObserver) : Bool :=
  o.status = .cancelled

end ConnectionObserver

/-- runner.py `time_out_observer` (lines 103–127): if the observer is not
done, build a `CommandTimeout` when it has a `command_string` and a
`ConnectionObserverTimeout` otherwise, `set_exception` it into the
observer and fire `on_timeout` (the remaining lines only log). -/
def time_out_observer (o : ConnectionObserver) (timeout passed : ℚ) : ConnectionObserver :=
  if ¬ o.done then
    let exception :=
      if o.has_command_string then
        MolerError.commandTimeout timeout passed
      else
        MolerError.connectionObserverTimeout timeout passed
    let o2 := o.set_exception exception
    { o2 with on_timeout_count := o2.on_timeout_count + 1 }
  else o

/-- A timeout write on a live observer leaves it done. -/
lemma time_out_observer_makes_done (o : ConnectionObserver) (t p : ℚ)
    (h : o.done = false) : (time_out_observer o t p).done = true := by
  obtain ⟨st, r, e, sta, tmo, cs, cnt⟩ := o
  cases st <;> cases cs <;>
    simp_all [time_out_observer, ConnectionObserver.set_exception, ConnectionObserver.done,
      ConnectionObserver.has_command_string, MolerError.isTimeoutKind]

/-- A timeout write on a done observer is the identity. -/
lemma time_out_observer_of_done (o : ConnectionObserver) (t p : ℚ)
    (h : o.done = true) : time_out_observer o t p = o := by
  simp [time_out_observer, h]

/-- C4: the exception written by the runner's timeout is `CommandTimeout`
for observers carrying a `command_string` (commands) and
`ConnectionObserverTimeout` (the spec's `ObserverTimeout`) for the rest
(events). -/
theorem timeout_exception_kind_matches_observer_kind
    (o : ConnectionObserver) (t p : ℚ) (h : o.done = false) :
    (time_out_observer o t p).exception =
      some (if o.has_command_string then MolerError.commandTimeout t p
            else MolerError.connectionObserverTimeout t p) ∧
    (time_out_observer o t p).status = ObserverStatus.timed_out := by
  obtain ⟨st, r, e, sta, tmo, cs, cnt⟩ := o
  cases st <;> cases cs <;>
    simp_all [time_out_observer, ConnectionObserver.set_exception, ConnectionObserver.done,
      ConnectionObserver.has_command_string, MolerError.isTimeoutKind]

/-- Witness for C4: a running command times out with `CommandTimeout`,
a running event with `ConnectionObserverTimeout`. -/
theorem timeout_exception_kind_matches_observer_kind_witness :
    (time_out_observer
        ⟨.running, none, none, 0, some 1, some "echo hi", 0⟩ 1 2).exception =
      some (MolerError.commandTimeout 1 2) ∧
    (time_out_observer
        ⟨.running, none, none, 0, some 1, some "echo hi", 0⟩ 1 2).status =
      ObserverStatus.timed_out := by
  have h := timeout_exception_kind_matches_observer_kind
    ⟨.running, none, none, 0, some 1, some "echo hi", 0⟩ 1 2 (by decide)
  simpa [ConnectionObserver.has_command_string] using h

/-- C5: the runner's timeout write fires at most once: on an already-done
observer `time_out_observer` changes nothing (no exception write, no
`on_timeout`), and a second application after a first one is always the
identity, so `on_timeout` fires at most once per observer. -/
theorem time_out_observer_at_most_once
    (o : ConnectionObserver) (t p t2 p2 : ℚ) :
    (o.done = true → time_out_observer o t p = o) ∧
    time_out_observer (time_out_observer o t p) t2 p2 = time_out_observer o t p := by
  constructor
  · intro h
    exact time_out_observer_of_done o t p h
  · cases h : o.done with
    | true =>
        rw [time_out_observer_of_done o t p h, time_out_observer_of_done o t2 p2 h]
    | false =>
        exact time_out_observer_of_done _ t2 p2 (time_out_observer_makes_done o t p h)

/-- Witness for C5: a done (cancelled) observer is untouched by a timeout
write, and re-timing-out a timed-out observer is a no-op. -/
theorem time_out_observer_at_most_once_witness :
    (time_out_observer ⟨.cancelled, none, none, 0, some 1, none, 0⟩ 1 2 =
      ⟨.cancelled, none, none, 0, some 1, none, 0⟩) ∧
    time_out_observer
        (time_out_observer ⟨.cancelled, none, none, 0, some 1, none, 0⟩ 1 2) 3 4 =
      time_out_observer ⟨.cancelled, none, none, 0, some 1, none, 0⟩ 1 2 := by
  have h := time_out_observer_at_most_once
    ⟨.cancelled, none, none, 0, some 1, none, 0⟩ 1 2 3 4
  exact ⟨h.1 (by decide), h.2⟩

/-- Applying `set_exception` to a live observer records the exception and makes
the observer done. -/
lemma set_exception_of_not_done (o : ConnectionObserver) (e : MolerError)
    (h : o.done = false) :
    (o.set_exception e).exception = some e ∧ (o.set_exception e).done = true := by
  obtain ⟨st, r, ex, sta, tmo, cs, cnt⟩ := o
  cases st <;> cases he : e.isTimeoutKind <;>
    simp_all [ConnectionObserver.set_exception, ConnectionObserver.done]

/-- Outcome of one chunk delivery through the runner's guarded receiver:
the observer afterwards, whether `data_received` ran (it runs inside
`with observer_lock:`), and whether an escaping exception was written
with `set_exception` inside `with observer_lock:`. -/
structure SecureRecvResult where
  observer : ConnectionObserver
  data_received_invoked : Bool
  exception_set_under_lock : Bool
  deriving DecidableEq, Repr

/-- runner.py `secure_data_received`, the closure subscribed by
`_start_feeding` (lines 363–380).  The observer's `data_received`
parsing hook is abstract here and passed as `hook`: applied to the
observer and a chunk it returns the mutated observer and, when the hook
raised, the escaping exception (Python mutates the observer in place up
to the raise point).  A chunk arriving when the observer is already done
or the runner is shutting down is dropped before the hook runs; an
exception escaping the hook is captured and written via `set_exception`
under the observer lock; the `finally` block only logs.  The closure
never re-raises: every branch returns normally. -/
def secure_data_received
    (hook : ConnectionObserver → String → ConnectionObserver × Option MolerError)
    (in_shutdown : Bool) (o : ConnectionObserver) (data : String) : SecureRecvResult :=
  if o.done || in_shutdown then
    { observer := o, data_received_invoked := false, exception_set_under_lock := false }
  else
    match hook o data with
    | (o2, none) =>
        { observer := o2, data_received_invoked := true, exception_set_under_lock := false }
    | (o2, some exc) =>
        { observer := o2.set_exception exc, data_received_invoked := true,
          exception_set_under_lock := true }

/-- C7: the guarded receiver drops chunks for done observers and during
runner shutdown without invoking `data_received`, and an exception
raised by `data_received` is captured (never re-raised: the function is
total) and written under the observer lock as the observer's terminal
exception. -/
theorem secure_data_received_guards
    (hook : ConnectionObserver → String → ConnectionObserver × Option MolerError)
    (in_shutdown : Bool) (o : ConnectionObserver) (data : String) :
    (o.done = true ∨ in_shutdown = true →
      secure_data_received hook in_shutdown o data =
        { observer := o, data_received_invoked := false, exception_set_under_lock := false }) ∧
    (∀ o2 exc, o.done = false → in_shutdown = false → hook o data = (o2, some exc) →
      o2.done = false →
      (secure_data_received hook in_shutdown o data).observer = o2.set_exception exc ∧
      (secure_data_received hook in_shutdown o data).observer.exception = some exc ∧
      (secure_data_received hook in_shutdown o data).observer.done = true ∧
      (secure_data_received hook in_shutdown o data).data_received_invoked = true ∧
      (secure_data_received hook in_shutdown o data).exception_set_under_lock = true) := by
  constructor
  · intro h
    rcases h with h | h <;> simp [secure_data_received, h]
  · intro o2 exc hdone hsh hhook h2
    have hset := set_exception_of_not_done o2 exc h2
    simp [secure_data_received, hdone, hsh, hhook, hset.1, hset.2]

/-- Witness for C7: a concrete parsing hook that raises turns into a
terminal `pyError` exception on the observer, and the same chunk sent to
a cancelled observer is dropped. -/
theorem secure_data_received_guards_witness :
    ((secure_data_received (fun o _ => (o, some (MolerError.pyError "parse boom"))) false
        ⟨.running, none, none, 0, some 7, none, 0⟩ "chunk").observer.exception =
      some (MolerError.pyError "parse boom")) ∧
    (secure_data_received (fun o _ => (o, some (MolerError.pyError "parse boom"))) false
        ⟨.cancelled, none, none, 0, some 7, none, 0⟩ "chunk" =
      { observer := ⟨.cancelled, none, none, 0, some 7, none, 0⟩,
        data_received_invoked := false, exception_set_under_lock := false }) := by
  constructor
  · exact ((secure_data_received_guards
      (fun o _ => (o, some (MolerError.pyError "parse boom"))) false
      ⟨.running, none, none, 0, some 7, none, 0⟩ "chunk").2
      ⟨.running, none, none, 0, some 7, none, 0⟩ (MolerError.pyError "parse boom")
      rfl rfl rfl rfl).2.1
  · exact (secure_data_received_guards
      (fun o _ => (o, some (MolerError.pyError "parse boom"))) false
      ⟨.cancelled, none, none, 0, some 7, none, 0⟩ "chunk").1 (Or.inl rfl)

/-- concurrent.futures future states (external library model). -/
inductive FutureState where
  | pending
  | running
  | finished
  | cancelledF
  deriving DecidableEq, Repr

/-- Modelled behaviour of `concurrent.futures.Future.cancel` (external
library): a running or finished future cannot be cancelled (returns
False); otherwise the future becomes cancelled and True is returned. -/
def FutureState.cancelBase : FutureState → FutureState × Bool
  | .running => (.running, false)
  | .finished => (.finished, false)
  | _ => (.cancelledF, true)

/-- runner.py `CancellableFuture` (lines 142–193): the wrapped future's
state, the `stop_running` and `is_done` threading events shared with the
feed loop, and `stop_timeout` (default 0.5 s, from the constructor
signature). -/
structure CancellableFuture where
  future : FutureState
  stop_running : Bool
  is_done : Bool
  stop_timeout : ℚ := 1/2
  deriving DecidableEq, Repr

/-- runner.py `CancellableFuture.cancel` together with `_stop`
(lines 167–193).  `wait_ok` stands for the result of
`self._is_done.wait(timeout=self._stop_timeout)`: whether the feed loop
set the done flag within `stop_timeout` seconds.  On a running future,
`_stop` sets the `stop_running` event; with `no_wait` the call returns
True immediately; otherwise a failed wait raises
`MolerException("Failed to stop thread-running function within ...")`,
and a successful wait forces the future state back to PENDING so that
`Future.cancel()` succeeds.  On a future that is not running, only
`Future.cancel()` is attempted. -/
def CancellableFuture.cancel (cf : CancellableFuture) (no_wait : Bool) (wait_ok : Bool) :
    Except MolerError (CancellableFuture × Bool) :=
  if cf.future = .running then
    let cf2 := { cf with stop_running := true }
    if no_wait then .ok (cf2, true)
    else if wait_ok then .ok ({ cf2 with future := .cancelledF }, true)
    else .error (.molerException
      ("Failed to stop thread-running function within " ++ toString cf.stop_timeout ++ " sec"))
  else
    let r := cf.future.cancelBase
    .ok ({ cf with future := r.1 }, r.2)

/-- Counterexample for C6: on a handle whose future has not started
running yet, `cancel(no_wait=True)` does not set the stop flag — it
falls through to `Future.cancel()` — contradicting the claim that for
every submission handle `cancel(no_wait=true)` sets the stop flag. -/
theorem cancel_pending_future_leaves_stop_flag_clear :
    CancellableFuture.cancel ⟨.pending, false, false, 1/2⟩ true true =
      .ok (⟨.cancelledF, false, false, 1/2⟩, true) ∧
    (⟨.cancelledF, false, false, 1/2⟩ : CancellableFuture).stop_running = false := by
  exact ⟨rfl, rfl⟩

/-- C6 (amended to handles whose future is running): `cancel(no_wait)`
sets the stop flag; with `no_wait` it returns immediately, otherwise it
waits up to `stop_timeout` (default 0.5 s) for the feed loop's done
flag, and raises `MolerException` (the spec's `InternalError`) when the
flag is not set in time. -/
theorem cancellable_future_cancel_running
    (cf : CancellableFuture) (w : Bool) (h : cf.future = .running) :
    CancellableFuture.cancel cf true w = .ok ({ cf with stop_running := true }, true) ∧
    CancellableFuture.cancel cf false true =
      .ok ({ cf with stop_running := true, future := .cancelledF }, true) ∧
    CancellableFuture.cancel cf false false =
      .error (.molerException
        ("Failed to stop thread-running function within " ++ toString cf.stop_timeout ++ " sec")) ∧
    ({ future := .running, stop_running := false, is_done := false } :
      CancellableFuture).stop_timeout = 1/2 := by
  refine ⟨?_, ?_, ?_, rfl⟩ <;> simp [CancellableFuture.cancel, h]

/-- Witness for C6: a running handle, concrete in every field. -/
theorem cancellable_future_cancel_running_witness :
    CancellableFuture.cancel ⟨.running, false, false, 1/2⟩ true true =
      .ok (⟨.running, true, false, 1/2⟩, true) ∧
    CancellableFuture.cancel ⟨.running, false, false, 1/2⟩ false false =
      .error (.molerException
        ("Failed to stop thread-running function within " ++ toString (1/2 : ℚ) ++ " sec")) := by
  have h := cancellable_future_cancel_running ⟨.running, false, false, 1/2⟩ true rfl
  exact ⟨h.1, h.2.2.1⟩

/-- runner.py `his_remaining_time` (lines 449–464): remaining lifetime
relative to `he.start_time`, clamped at zero (the accompanying message
string only feeds logging). -/
def his_remaining_time (now start_time timeout : ℚ) : ℚ :=
  let already_passed := now - start_time
  let remain_time := timeout - already_passed
  if remain_time < 0 then 0 else remain_time

/-- Outcome of a `wait_for` call: how long the caller blocked before the
call returned or declared a timeout, whether the future was cancelled,
whether `time_out_observer` ran inside `with
connection_observer_future.observer_lock:`, the observer afterwards, and
the timeout value passed to the write. -/
structure WaitForOutcome where
  blocked : ℚ
  future_cancelled : Bool
  timeout_write_under_lock : Bool
  observer : ConnectionObserver
  fired_timeout : Option ℚ
  deriving DecidableEq, Repr

/-- runner.py `ThreadPoolExecutorRunner.wait_for` (lines 279–340) on the
truthy-`timeout` path (`if max_timeout:`; a `None` or `0.0` argument
takes the 100 ms polling loop instead).  `future_done_at_entry` is
`connection_observer_future.done()` at the early-return check;
`future_completion` is the delay until the underlying future completes
(`none` = not during this call), so `wait([future], timeout=r)` reports
the future done iff that delay is at most `r`.  If the observer is
already done the future is cancelled (when still incomplete) and nothing
is written.  Otherwise the caller blocks for
`his_remaining_time(now, start_time, max_timeout)` — computed from the
explicit timeout only — and on expiry cancels the future with `no_wait`
and writes the timeout under the observer lock with
`fired_timeout = timeout` (truthy explicit timeout). -/
def wait_for_with_max_timeout (o : ConnectionObserver) (now max_timeout : ℚ)
    (future_done_at_entry : Bool) (future_completion : Option ℚ) : WaitForOutcome :=
  if o.done then
    { blocked := 0, future_cancelled := !future_done_at_entry,
      timeout_write_under_lock := false, observer := o, fired_timeout := none }
  else
    let start_time := o.start_time
    let remain_time := his_remaining_time now start_time max_timeout
    if 0 < remain_time ∧ future_completion.any (fun c => decide (c ≤ remain_time)) then
      { blocked := future_completion.getD 0, future_cancelled := false,
        timeout_write_under_lock := false, observer := o, fired_timeout := none }
    else
      let passed := now + remain_time - start_time
      { blocked := remain_time, future_cancelled := true,
        timeout_write_under_lock := true,
        observer := time_out_observer o max_timeout passed,
        fired_timeout := some max_timeout }

/-- The blocking budget the spec assigns to `wait_for` with an explicit
timeout, following the spec's words: "block for min(explicit, remaining
observer-deadline)" — the minimum of the explicit timeout's remaining
time and the observer's remaining deadline `start_time + timeout`. -/
def wait_for_spec_block_time (now start_time max_timeout observer_timeout : ℚ) : ℚ :=
  min (his_remaining_time now start_time max_timeout)
      (his_remaining_time now start_time observer_timeout)

/-- Counterexample for C3: an observer with `timeout = 1` started at 0,
awaited at time 0 with explicit timeout 10 and a future that never
completes, blocks for 10 seconds before declaring the timeout — not the
claimed min(10, 1) = 1. -/
theorem wait_for_ignores_observer_deadline :
    (wait_for_with_max_timeout ⟨.running, none, none, 0, some 1, none, 0⟩
        0 10 false none).blocked = 10 ∧
    wait_for_spec_block_time 0 0 10 1 = 1 ∧
    (10 : ℚ) ≠ 1 := by
  refine ⟨?_, ?_, by norm_num⟩
  · norm_num [wait_for_with_max_timeout, his_remaining_time, ConnectionObserver.done]
  · norm_num [wait_for_spec_block_time, his_remaining_time]

/-- C3 (amended): with a truthy explicit timeout, `wait_for` on a
not-yet-done observer blocks only for the explicit timeout's remaining
time `max(0, timeout − (now − start_time))`; the observer's own deadline
is never consulted on this path.  When that time expires without the
future completing, the future is cancelled (`no_wait`) and a timeout
carrying the explicit timeout value is written into the observer under
the observer mutex. -/
theorem wait_for_explicit_timeout_behaviour
    (o : ConnectionObserver) (now max_timeout : ℚ)
    (future_done_at_entry : Bool) (future_completion : Option ℚ)
    (hdone : o.done = false) (_htruthy : max_timeout ≠ 0)
    (hnc : ∀ c ∈ future_completion,
      ¬ c ≤ his_remaining_time now o.start_time max_timeout) :
    wait_for_with_max_timeout o now max_timeout future_done_at_entry future_completion =
      { blocked := his_remaining_time now o.start_time max_timeout,
        future_cancelled := true,
        timeout_write_under_lock := true,
        observer := time_out_observer o max_timeout
          (now + his_remaining_time now o.start_time max_timeout - o.start_time),
        fired_timeout := some max_timeout } := by
  have hcond : ¬ (0 < his_remaining_time now o.start_time max_timeout ∧
      future_completion.any
        (fun c => decide (c ≤ his_remaining_time now o.start_time max_timeout))) := by
    rintro ⟨-, hany⟩
    cases hfc : future_completion with
    | none => rw [hfc] at hany; simp [Option.any] at hany
    | some c =>
        rw [hfc] at hany
        simp [Option.any] at hany
        exact hnc c (Option.mem_def.mpr hfc) hany
  simp [wait_for_with_max_timeout, hdone, hcond]

/-- Witness for C3's amended theorem: concrete observer, explicit
timeout 10, future never completing. -/
theorem wait_for_explicit_timeout_behaviour_witness :
    wait_for_with_max_timeout ⟨.running, none, none, 0, some 1, none, 0⟩ 0 10 false none =
      { blocked := 10, future_cancelled := true, timeout_write_under_lock := true,
        observer := ⟨.timed_out, none,
          some (MolerError.connectionObserverTimeout 10 10), 0, some 1, none, 1⟩,
        fired_timeout := some 10 } := by
  have h := wait_for_explicit_timeout_behaviour
    ⟨.running, none, none, 0, some 1, none, 0⟩ 0 10 false none rfl (by norm_num)
    (by simp)
  rw [h]
  have hr : his_remaining_time 0 0 10 = 10 := by
    norm_num [his_remaining_time]
  rw [hr]
  simp [time_out_observer, ConnectionObserver.set_exception, ConnectionObserver.done,
    ConnectionObserver.has_command_string, MolerError.isTimeoutKind]

/-- Result of one iteration of the feed loop: exit because the stop flag
was set, exit because the observer is done, exit after a deadline write
(`with observer_lock: time_out_observer(...)`), or sleep 5 ms and
iterate again with the (possibly shutdown-cancelled) observer. -/
inductive FeedLoopTick where
  | stopped
  | doneExit
  | timedOut (o : ConnectionObserver)
  | nextTick (o : ConnectionObserver)
  deriving DecidableEq, Repr

/-- One iteration of runner.py `ThreadPoolExecutorRunner._feed_loop`
(lines 417–440) at wall-clock time `now`.  `start_time` is read once
before the loop (line 418); `connection_observer.timeout` is re-read on
every iteration (source comment: "we need to check
connection_observer.timeout at each round since timeout may change
during lifetime of connection_observer").  On deadline
(`run_duration >= timeout` with a non-None timeout) the timeout is
written under the observer lock and the loop breaks; during runner
shutdown the observer is cancelled and the loop continues (the next
iteration exits through the done check). -/
def feed_loop_tick (o : ConnectionObserver) (stop_feeding in_shutdown : Bool)
    (start_time now : ℚ) : FeedLoopTick :=
  if stop_feeding then .stopped
  else if o.done then .doneExit
  else
    let run_duration := now - start_time
    match o.timeout with
    | some t =>
        if run_duration ≥ t then .timedOut (time_out_observer o t run_duration)
        else if in_shutdown then .nextTick o.cancel else .nextTick o
    | none => if in_shutdown then .nextTick o.cancel else .nextTick o

/-- Updating only the `timeout` field does not change done-ness. -/
lemma done_set_timeout (o : ConnectionObserver) (x : Option ℚ) :
    ConnectionObserver.done { o with timeout := x } = o.done := rfl

/-- C8: the feed loop re-reads `observer.timeout` on every tick, so the
effective deadline is `start_time + current timeout`: the tick times the
observer out exactly when the elapsed run duration has reached the
current timeout value; replacing the timeout by any value above the
elapsed duration makes the tick continue, and by any value at or below
it makes the tick write the timeout (under the observer mutex) at once.
-/
theorem feed_loop_tick_rereads_timeout
    (o : ConnectionObserver) (start_time now t : ℚ)
    (hdone : o.done = false) (hto : o.timeout = some t) :
    (feed_loop_tick o false false start_time now =
      if now - start_time ≥ t then
        .timedOut (time_out_observer o t (now - start_time))
      else .nextTick o) ∧
    (∀ t2 : ℚ, now - start_time < t2 →
      feed_loop_tick { o with timeout := some t2 } false false start_time now =
        .nextTick { o with timeout := some t2 }) ∧
    (∀ t2 : ℚ, t2 ≤ now - start_time →
      feed_loop_tick { o with timeout := some t2 } false false start_time now =
        .timedOut (time_out_observer { o with timeout := some t2 } t2 (now - start_time))) := by
  refine ⟨?_, ?_, ?_⟩
  · simp [feed_loop_tick, hdone, hto]
  · intro t2 h2
    simp [feed_loop_tick, done_set_timeout, hdone, not_le.mpr h2]
  · intro t2 h2
    simp [feed_loop_tick, done_set_timeout, hdone, h2]

/-- Witness for C8: a running observer started at 0 with timeout 2,
ticked at time 1: it continues; lowering the timeout to 1 makes the same
tick time it out, raising it to 5 keeps it running. -/
theorem feed_loop_tick_rereads_timeout_witness :
    feed_loop_tick ⟨.running, none, none, 0, some 2, none, 0⟩ false false 0 1 =
      .nextTick ⟨.running, none, none, 0, some 2, none, 0⟩ ∧
    feed_loop_tick ⟨.running, none, none, 0, some 1, none, 0⟩ false false 0 1 =
      .timedOut ⟨.timed_out, none,
        some (MolerError.connectionObserverTimeout 1 1), 0, some 1, none, 1⟩ ∧
    feed_loop_tick ⟨.running, none, none, 0, some 5, none, 0⟩ false false 0 1 =
      .nextTick ⟨.running, none, none, 0, some 5, none, 0⟩ := by
  have h := feed_loop_tick_rereads_timeout
    ⟨.running, none, none, 0, some 2, none, 0⟩ 0 1 2 rfl rfl
  refine ⟨?_, ?_, ?_⟩
  · have h1 := h.1
    rw [if_neg (by norm_num)] at h1
    exact h1
  · have h3 := h.2.2 1 (by norm_num)
    rw [h3]
    simp [time_out_observer, ConnectionObserver.set_exception, ConnectionObserver.done,
      ConnectionObserver.has_command_string, MolerError.isTimeoutKind]
  · exact h.2.1 5 (by norm_num)

/-- An apscheduler interval job (external library model): the registered
callable, the paused flag driven by `pause`/`resume`, and the configured
interval in seconds.  Callbacks are embedded as state transformers over
an abstract state `σ` that may raise (`Except String`). -/
structure SchedJob (σ : Type) where
  registered : σ → Except String σ
  paused : Bool
  interval : ℚ

/-- One interval firing executed by the apscheduler machinery (external
library model): a paused job does not run; otherwise the registered
callable is invoked, and an exception escaping it is logged and
swallowed by apscheduler, leaving the schedule — including the paused
flag — unchanged.  Returns the state, the job and whether the registered
callable was invoked. -/
def SchedJob.tick {σ : Type} (j : SchedJob σ) (s : σ) : σ × SchedJob σ × Bool :=
  if j.paused then (s, j, false)
  else
    match j.registered s with
    | .ok s2 => (s2, j, true)
    | .error _ => (s, j, true)

/-- scheduler.py `Job.start` (lines 133–138): `self._job.resume()`. -/
def Job.start {σ : Type} (j : SchedJob σ) : SchedJob σ :=
  { j with paused := false }

/-- scheduler.py `Job.cancel` (lines 140–145): `self._job.pause()`. -/
def Job.cancel {σ : Type} (j : SchedJob σ) : SchedJob σ :=
  { j with paused := true }

/-- scheduler.py `DecoratedCallable.call` (lines 115–124): run the
callback; on an escaping exception, when `cancel_on_exception` is set
and the job reference has been attached, log a warning and pause the job
via `self.job.cancel()`; otherwise swallow the exception. -/
def DecoratedCallable.call {σ : Type} (callback : σ → Except String σ)
    (cancel_on_exception : Bool) (job_attached : Bool)
    (j : SchedJob σ) (s : σ) : σ × SchedJob σ :=
  match callback s with
  | .ok s2 => (s2, j)
  | .error _ =>
      if cancel_on_exception then
        if job_attached then (s, Job.cancel j) else (s, j)
      else (s, j)

/-- scheduler.py `Scheduler.get_job` (lines 17–38): wrap the callback in
a `DecoratedCallable`, register it with
`add_job(decorated.callback, 'interval', seconds=interval, ...)` — note
that the source passes `decorated.callback`, i.e. the raw callback, to
`add_job`, not the exception-handling wrapper `decorated.call` — then
`job_internal.pause()` and return the `Job` handle.  The returned record
is the scheduler-side job the handle controls. -/
def Scheduler.get_job {σ : Type} (callback : σ → Except String σ) (interval : ℚ)
    (_cancel_on_exception : Bool) : SchedJob σ :=
  { registered := callback, paused := true, interval := interval }

/-- C1 (code bug): with `cancel_on_exception=True` and a callback that
always raises, the job returned by `get_job`, once started, is NOT
paused by a failing invocation — apscheduler runs the registered raw
callback and swallows the exception — so the callback fires again on the
next interval.  The pause-on-exception logic lives in
`DecoratedCallable.call`, which the source never registers: calling it
directly would pause the job, as the last conjunct shows. -/
theorem scheduler_cancel_on_exception_not_wired :
    (Job.start (Scheduler.get_job (fun _ : ℕ => Except.error "boom") 1 true)).tick 0 =
      (0, Job.start (Scheduler.get_job (fun _ : ℕ => Except.error "boom") 1 true), true) ∧
    ((Job.start (Scheduler.get_job (fun _ : ℕ => Except.error "boom") 1 true)).tick 0).2.1.paused
      = false ∧
    (((Job.start (Scheduler.get_job (fun _ : ℕ => Except.error "boom") 1 true)).tick
        0).2.1.tick 0).2.2 = true ∧
    DecoratedCallable.call (fun _ : ℕ => Except.error "boom") true true
        (Job.start (Scheduler.get_job (fun _ : ℕ => Except.error "boom") 1 true)) 0 =
      (0, Job.cancel (Job.start (Scheduler.get_job (fun _ : ℕ => Except.error "boom") 1 true))) := by
  exact ⟨rfl, rfl, rfl, rfl⟩

/-- C10: every job returned by `get_job` starts paused; a tick on a
paused job neither invokes the callback nor changes anything; ticks
never change the paused flag (so the callback cannot run before the
first `start()`); `cancel()` re-pauses the job, after which ticks again
invoke nothing until a `start()` clears the flag. -/
theorem scheduler_job_initially_paused {σ : Type}
    (callback : σ → Except String σ) (interval : ℚ) (coe : Bool) (s : σ) :
    (Scheduler.get_job callback interval coe).paused = true ∧
    (Scheduler.get_job callback interval coe).tick s =
      (s, Scheduler.get_job callback interval coe, false) ∧
    (∀ j : SchedJob σ, (Job.cancel j).paused = true ∧
      (Job.cancel j).tick s = (s, Job.cancel j, false)) ∧
    (∀ j : SchedJob σ, ((j.tick s).2.1).paused = j.paused) ∧
    (Job.start (Scheduler.get_job callback interval coe)).paused = false := by
  refine ⟨rfl, rfl, fun j => ⟨rfl, rfl⟩, ?_, rfl⟩
  intro j
  unfold SchedJob.tick
  cases hp : j.paused
  · simp only [Bool.false_eq_true, if_false]
    cases j.registered s <;> simp [hp]
  · simp [hp]

/-- The two observer catalogs of a `TextualDevice`: class attributes
`TextualDevice.cmds = "cmd"` and `TextualDevice.events = "event"`
(textualdevice.py lines 27–28). -/
inductive ObserverType where
  | cmds
  | events
  deriving DecidableEq, Repr

/-- The string value of the class attribute, used in messages. -/
def ObserverType.label : ObserverType → String
  | .cmds => "cmd"
  | .events => "event"

/-- The observer-catalog state of a `TextualDevice`: the state machine's
current state and the per-state name → class-fullname maps built once at
construction by `_collect_cmds_for_state_machine` /
`_collect_events_for_state_machine` (textualdevice.py lines 114–128).
`class_name` is the Python `self.__class__.__name__` used in the
`KeyError` message. -/
structure DeviceModel where
  class_name : String
  current_state : String
  cmdnames_available_in_state : String → List (String × String)
  eventnames_available_in_state : String → List (String × String)

/-- The message of the `KeyError` raised by `_get_observer_in_state`
(textualdevice.py lines 238–241). -/
def key_error_msg (observer_type : String) (observer_name : String)
    (state : String) (device : String) : String :=
  "Failed to create " ++ observer_type ++ "-object for '" ++ observer_name ++ "' "
    ++ observer_type ++ ". '" ++ observer_name ++ "' " ++ observer_type
    ++ " is unknown for state '" ++ state ++ "' of device '" ++ device ++ "'."

/-- textualdevice.py `TextualDevice._get_observer_in_state`
(lines 215–241): pick the catalog for the current state; when the name
is present, import and instantiate its class (the created observer is
represented here by its class fullname — instantiation binds the
device's moler connection and is outside this model); when it is absent,
raise `KeyError` with the message above. -/
def TextualDevice.get_observer_in_state (d : DeviceModel) (observer_name : String)
    (observer_type : ObserverType) : Except MolerError String :=
  let available_observer_names :=
    match observer_type with
    | .cmds => d.cmdnames_available_in_state d.current_state
    | .events => d.eventnames_available_in_state d.current_state
  match available_observer_names.lookup observer_name with
  | some fullname => .ok fullname
  | none => .error (.keyError
      (key_error_msg observer_type.label observer_name d.current_state d.class_name))

/-- Modelled from the spec: the original `_validate_start` of the
observer (moler/connection_observer.py is not under src/): the pre-start
validation succeeds on an unstarted observer (§4.2; the monkey-patching
note in §9 calls it the pluggable pre-start predicate). -/
def base_validate_start : String → Except MolerError Unit :=
  fun _ => .ok ()

/-- The object returned by `TextualDevice.get_observer`: the created
observer (its class fullname) together with its `_validate_start`
method — a function of the device's `current_state` at the moment
`start()` later runs, since `get_observer` may monkey-patch it. -/
structure WrappedObserver where
  observer : String
  validate_start : String → Except MolerError Unit

/-- textualdevice.py `TextualDevice.get_observer` (lines 255–276):
create the observer via `_create_cmd_instance` /
`_create_event_instance` (both delegate to `_get_observer_in_state`),
and when `check_state` is set replace its `_validate_start` by
`validate_device_state_before_observer_start`, which captures
`creation_state = self.current_state` and, at start time, runs the
original validator when the device state is unchanged and raises
`observer_exception(observer, creation_state, current_state)`
otherwise. -/
def TextualDevice.get_observer (d : DeviceModel) (observer_name : String)
    (observer_type : ObserverType)
    (observer_exception : String → String → String → MolerError)
    (check_state : Bool) : Except MolerError WrappedObserver :=
  (TextualDevice.get_observer_in_state d observer_name observer_type).map fun obs =>
    if check_state then
      { observer := obs
        validate_start := fun current_state =>
          if current_state = d.current_state then base_validate_start current_state
          else .error (observer_exception obs d.current_state current_state) }
    else
      { observer := obs, validate_start := base_validate_start }

/-- textualdevice.py `TextualDevice.get_cmd` (lines 278–283):
`get_observer` over the command catalog with `CommandWrongState` as the
wrong-state exception. -/
def TextualDevice.get_cmd (d : DeviceModel) (cmd_name : String)
    (check_state : Bool) : Except MolerError WrappedObserver :=
  TextualDevice.get_observer d cmd_name .cmds
    (fun obs creation current => .commandWrongState obs creation current) check_state

/-- textualdevice.py `TextualDevice.get_event` (lines 285–289):
`get_observer` over the event catalog with `EventWrongState`. -/
def TextualDevice.get_event (d : DeviceModel) (event_name : String)
    (check_state : Bool) : Except MolerError WrappedObserver :=
  TextualDevice.get_observer d event_name .events
    (fun obs creation current => .eventWrongState obs creation current) check_state

/-- A sample device with one command and one event available in state
UNIX_LOCAL and nothing elsewhere, used as concrete input. -/
def sampleDevice : DeviceModel :=
  { class_name := "UnixRemote"
    current_state := "UNIX_LOCAL"
    cmdnames_available_in_state := fun st =>
      if st = "UNIX_LOCAL" then [("ping", "moler.cmd.unix.ping.Ping")] else []
    eventnames_available_in_state := fun st =>
      if st = "UNIX_LOCAL" then [("wait4prompt", "moler.events.unix.wait4prompt.Wait4prompt")]
      else [] }

/-- Counterexample for C2: a name absent from the command catalog of the
current state makes `get_cmd` fail with `KeyError` — not with the
claimed `WrongUsage`. -/
theorem get_cmd_missing_name_raises_keyerror :
    TextualDevice.get_cmd sampleDevice "nmap" true =
      .error (.keyError (key_error_msg "cmd" "nmap" "UNIX_LOCAL" "UnixRemote")) ∧
    (MolerError.keyError
      (key_error_msg "cmd" "nmap" "UNIX_LOCAL" "UnixRemote")).isWrongUsage = false ∧
    (MolerError.keyError
      (key_error_msg "cmd" "nmap" "UNIX_LOCAL" "UnixRemote")).isKeyError = true := by
  exact ⟨rfl, rfl, rfl⟩

/-- C2 (amended): `get_cmd(n)` (resp. `get_event`) succeeds exactly when
`n` is in the command (resp. event) catalog of the current state and
fails with `KeyError` — not `WrongUsage` — when it is missing; and for
an observer obtained with `check_state=true`, the patched
`_validate_start` run when the device state differs from the state at
construction fails with `CommandWrongState` (resp. `EventWrongState`),
while in the unchanged state it runs the original validator. -/
theorem get_observer_state_gate (d : DeviceModel) (n : String) :
    (∀ f, (d.cmdnames_available_in_state d.current_state).lookup n = some f →
      ∃ w, TextualDevice.get_cmd d n true = .ok w ∧ w.observer = f ∧
        w.validate_start d.current_state = .ok () ∧
        ∀ s2, s2 ≠ d.current_state →
          w.validate_start s2 = .error (.commandWrongState f d.current_state s2)) ∧
    ((d.cmdnames_available_in_state d.current_state).lookup n = none →
      TextualDevice.get_cmd d n true =
        .error (.keyError (key_error_msg "cmd" n d.current_state d.class_name))) ∧
    (∀ f, (d.eventnames_available_in_state d.current_state).lookup n = some f →
      ∃ w, TextualDevice.get_event d n true = .ok w ∧ w.observer = f ∧
        w.validate_start d.current_state = .ok () ∧
        ∀ s2, s2 ≠ d.current_state →
          w.validate_start s2 = .error (.eventWrongState f d.current_state s2)) ∧
    ((d.eventnames_available_in_state d.current_state).lookup n = none →
      TextualDevice.get_event d n true =
        .error (.keyError (key_error_msg "event" n d.current_state d.class_name))) := by
  refine ⟨?_, ?_, ?_, ?_⟩
  · intro f hf
    refine ⟨{ observer := f
              validate_start := fun current_state =>
                if current_state = d.current_state then base_validate_start current_state
                else .error (.commandWrongState f d.current_state current_state) },
      ?_, rfl, ?_, ?_⟩
    · simp [TextualDevice.get_cmd, TextualDevice.get_observer,
        TextualDevice.get_observer_in_state, hf, Except.map]
    · simp [base_validate_start]
    · intro s2 hs2
      simp [hs2]
  · intro hf
    simp [TextualDevice.get_cmd, TextualDevice.get_observer,
      TextualDevice.get_observer_in_state, hf, ObserverType.label, Except.map]
  · intro f hf
    refine ⟨{ observer := f
              validate_start := fun current_state =>
                if current_state = d.current_state then base_validate_start current_state
                else .error (.eventWrongState f d.current_state current_state) },
      ?_, rfl, ?_, ?_⟩
    · simp [TextualDevice.get_event, TextualDevice.get_observer,
        TextualDevice.get_observer_in_state, hf, Except.map]
    · simp [base_validate_start]
    · intro s2 hs2
      simp [hs2]
  · intro hf
    simp [TextualDevice.get_event, TextualDevice.get_observer,
      TextualDevice.get_observer_in_state, hf, ObserverType.label, Except.map]

/-- Witness for C2's amended theorem: on the sample device, the missing
name "nmap" yields the `KeyError`, and "ping" in a changed state fails
the start validation with `CommandWrongState`. -/
theorem get_observer_state_gate_witness :
    TextualDevice.get_cmd sampleDevice "nmap" true =
      .error (.keyError (key_error_msg "cmd" "nmap" "UNIX_LOCAL" "UnixRemote")) ∧
    TextualDevice.get_event sampleDevice "nmap" true =
      .error (.keyError (key_error_msg "event" "nmap" "UNIX_LOCAL" "UnixRemote")) := by
  exact ⟨(get_observer_state_gate sampleDevice "nmap").2.1 rfl,
    (get_observer_state_gate sampleDevice "nmap").2.2.2 rfl⟩

/-- The fields of the `Ssh` transport class, from its constructor
(src/moler/io/raw/ssh.py lines 38–53); `shell_channel` is `None` until
`open()` succeeds and again after `close()`. -/
structure Ssh where
  host : String
  port : ℕ
  username : Option String
  password : Option String
  receive_buffer_size : ℕ
  shell_channel : Option Unit
  timeout : Option ℚ

/-- ssh.py `Ssh.settimeout` (lines 55–59): forward the timeout to the
shell channel only when one is open and the value changed. -/
def Ssh.settimeout (s : Ssh) (timeout : ℚ) : Ssh :=
  if s.timeout = none ∨ ¬ timeout = (s.timeout.getD 0) then
    if s.shell_channel.isSome then { s with timeout := some timeout } else s
  else s

/-- ssh.py `Ssh.close` (lines 82–98): close and forget the shell
channel; idempotent on a closed connection. -/
def Ssh.close (s : Ssh) : Ssh :=
  { s with shell_channel := none }

/-- The methods defined by the `Ssh` class body
(src/moler/io/raw/ssh.py lines 36–118), in source order.  There is no
`send` (and no receive path) among them; `RemoteEndpointNotConnected`
is imported at the top of the file but never raised. -/
def Ssh.method_names : List String :=
  ["__init__", "settimeout", "open", "close", "__enter__", "__exit__", "__str__", "_debug"]

/-- C9 (code bug): the `Ssh` class exposes no `send` operation at all —
calling `send` on any `Ssh` instance, open or closed, is an
`AttributeError`, not the `RemoteEndpointNotConnected` contract the spec
requires of every concrete transport. -/
theorem ssh_exposes_no_send :
    "send" ∉ Ssh.method_names ∧
    "open" ∈ Ssh.method_names ∧ "close" ∈ Ssh.method_names := by
  decide

end Moler
